import Mathlib

/-!
# URL shortener core: shallow embedding

Embedding of the validation, lifecycle, scheduling and resolution logic of the
Go source (controllers/url_controller.go, utils/validation.go, models).  The
source file carries two divergent versions of the controller; both are embedded
here, with suffixes v1 (the version with intendedExpiryDate support and the
structured CheckURLStatus pipeline) and v2 (the version with the safe-browsing
check and the gocron scheduler).  Timestamps are modelled as natural numbers;
Go time.Before is strict less-than and time.After is strict greater-than.
Outbound network calls and database inserts are recorded in an event trace so
that claims about side effects can be stated.
-/

deriving instance DecidableEq for Except

/-- Result of Go url.Parse, restricted to the components the code inspects.
The parse oracle returns none exactly when url.Parse returns an error. -/
structure ParsedURL where
  scheme : String
  host : String
deriving DecidableEq

/-- The two client-input validation errors of utils/validation.go
(ErrInvalidURLSyntax and ErrURLNotHTTPS). -/
inductive ValidationError where
  | invalidURLSyntax
  | urlNotHTTPS
deriving DecidableEq

/-- ValidateURLSyntax from utils/validation.go lines 42-53: parse failure,
empty scheme or empty host give ErrInvalidURLSyntax; a scheme other than
https gives ErrURLNotHTTPS; otherwise the URL is accepted (none). -/
def ValidateURLSyntax (parse : String → Option ParsedURL)
    (inputURL : String) : Option ValidationError :=
  match parse inputURL with
  | none => some ValidationError.invalidURLSyntax
  | some parsedURL =>
    if parsedURL.scheme = "" ∨ parsedURL.host = "" then
      some ValidationError.invalidURLSyntax
    else if parsedURL.scheme ≠ "https" then
      some ValidationError.urlNotHTTPS
    else
      none

/-- Response of the HEAD request issued by the liveness probe. -/
structure HeadResponse where
  statusCode : Nat
  location : String
deriving DecidableEq

/-- Error cases of CheckURLStatus: the embedded syntax re-check, or a failed
HEAD request (network failure). -/
inductive CheckStatusError where
  | invalidSyntax
  | headFailed
deriving DecidableEq

/-- URLCheckResult from utils/validation.go lines 128-132. -/
structure URLCheckResult where
  statusCode : Nat
  isHTTPS : Bool
  redirectURL : String
deriving DecidableEq

/-- CheckURLStatus from utils/validation.go lines 134-168: re-validates the
syntax, then issues a HEAD request (no redirect following, 10s timeout);
a transport failure is an error; otherwise the status code is reported and
for 301/302 the Location header is recorded. -/
def CheckURLStatus (parse : String → Option ParsedURL)
    (head : String → Except Unit HeadResponse)
    (inputURL : String) : Except CheckStatusError URLCheckResult :=
  match parse inputURL with
  | none => Except.error CheckStatusError.invalidSyntax
  | some parsedURL =>
    if parsedURL.scheme = "" ∨ parsedURL.host = "" then
      Except.error CheckStatusError.invalidSyntax
    else
      match head inputURL with
      | Except.error _ => Except.error CheckStatusError.headFailed
      | Except.ok resp =>
        Except.ok
          { statusCode := resp.statusCode
            isHTTPS := decide (parsedURL.scheme = "https")
            redirectURL :=
              if resp.statusCode = 301 ∨ resp.statusCode = 302 then
                resp.location
              else "" }

/-- UrlMapping from models (the central entity). -/
structure UrlMapping where
  id : Nat
  shortCode : String
  originalUrl : String
  intendedLiveDate : Option Nat
  intendedExpiryDate : Option Nat
  status : String
  lastCheckedAt : Nat
deriving DecidableEq

/-- MaliciousLog from models: the append-only audit record. -/
structure MaliciousLog where
  url : String
  userAgent : String
  ipAddress : String
  riskScore : Nat
  details : String
deriving DecidableEq

/-- logMaliciousURL from url_controller.go (v2) lines 351-363: builds the
audit record with the fixed baseline risk score 5. -/
def logMaliciousURL (url userAgent ipAddress : String) : MaliciousLog :=
  { url := url
    userAgent := userAgent
    ipAddress := ipAddress
    riskScore := 5
    details := "Failed Safe Browsing check" }

/-- Observable side effects of a creation request: outbound network calls and
database inserts, plus scheduling of a deferred check. -/
inductive Event where
  | headRequest (url : String)
  | safeBrowsingRequest (url : String)
  | insertMapping (shortCode : String)
  | insertMaliciousLog (url : String)
  | scheduleCheck (urlID : Nat) (fireTime : Nat)
deriving DecidableEq

/-- Go (optional time).Before(t): false when the optional is nil, otherwise a
strict comparison. -/
def optBefore (d : Option Nat) (t : Nat) : Bool :=
  match d with
  | none => false
  | some a => decide (a < t)

/-- Go a.After(b) on two optional times, guarded by the nil checks the v1
controller performs: true only when both are present and a is strictly
after b. -/
def optAfterOpt (a b : Option Nat) : Bool :=
  match a, b with
  | some x, some y => decide (y < x)
  | _, _ => false

/-- Request payload of the v1 ShortenURL handler. -/
structure ShortenRequestV1 where
  url : String
  intendedLiveDate : Option Nat
  intendedExpiryDate : Option Nat
deriving DecidableEq

/-- Outcomes of the v1 ShortenURL handler, one per response branch. -/
inductive OutcomeV1 where
  | invalidPayload
  | invalidURL (e : ValidationError)
  | checkStatusError
  | expiryInPast
  | liveAfterExpiry
  | dbError
  | success (mapping : UrlMapping)
deriving DecidableEq

/-- True exactly on the success outcome. -/
def OutcomeV1.isSuccess : OutcomeV1 → Bool
  | OutcomeV1.success _ => true
  | _ => false

/-- Status of the created mapping on success, none otherwise. -/
def OutcomeV1.statusOf : OutcomeV1 → Option String
  | OutcomeV1.success m => some m.status
  | _ => none

/-- External collaborators of the v1 creation pipeline: the URL parser, the
HEAD probe, the wall clock, the short-code generator (indexed by attempt
number) and the set of short codes already present in Persistence (the
uniqueness constraint). -/
structure EnvV1 where
  parse : String → Option ParsedURL
  head : String → Except Unit HeadResponse
  now : Nat
  gen : Nat → String
  existingCodes : List String
  nextId : Nat

/-- ShortenURL, version 1 (url_controller.go lines 41-114): decode guard,
syntax validation, CheckURLStatus (one HEAD request), liveness decided by a
2xx status code, date validation, a single short-code generation and a single
insert attempt (a code collision is a create error).  Returns the outcome and
the trace of side effects. -/
def ShortenURL_v1 (env : EnvV1) (req : ShortenRequestV1) :
    OutcomeV1 × List Event :=
  if req.url = "" then (OutcomeV1.invalidPayload, [])
  else
    match ValidateURLSyntax env.parse req.url with
    | some e => (OutcomeV1.invalidURL e, [])
    | none =>
      match CheckURLStatus env.parse env.head req.url with
      | Except.error _ => (OutcomeV1.checkStatusError, [Event.headRequest req.url])
      | Except.ok urlCheckResult =>
        let isLive : Bool :=
          decide (200 ≤ urlCheckResult.statusCode ∧ urlCheckResult.statusCode < 300)
        let status : String := if isLive then "live" else "inactive"
        if optBefore req.intendedExpiryDate env.now then
          (OutcomeV1.expiryInPast, [Event.headRequest req.url])
        else if optAfterOpt req.intendedLiveDate req.intendedExpiryDate then
          (OutcomeV1.liveAfterExpiry, [Event.headRequest req.url])
        else
          let shortCode := env.gen 0
          if env.existingCodes.contains shortCode then
            (OutcomeV1.dbError,
              [Event.headRequest req.url, Event.insertMapping shortCode])
          else
            (OutcomeV1.success
              { id := env.nextId
                shortCode := shortCode
                originalUrl := req.url
                intendedLiveDate := req.intendedLiveDate
                intendedExpiryDate := req.intendedExpiryDate
                status := status
                lastCheckedAt := env.now },
              [Event.headRequest req.url, Event.insertMapping shortCode])

/-- Lookup failures of Persistence: gorm.ErrRecordNotFound or any other
database error. -/
inductive LookupError where
  | recordNotFound
  | internal
deriving DecidableEq

/-- Outcomes of the redirect handler. -/
inductive ResolveOutcome where
  | notFound
  | serverError
  | gone
  | redirect (url : String)
deriving DecidableEq

/-- RedirectURL, version 1 (url_controller.go lines 117-146): look up by short
code; absent gives NotFound; then the lazy expiry test (now strictly after
intendedExpiryDate gives Gone regardless of stored status); then any status
other than live gives Gone; otherwise redirect to originalUrl unchanged. -/
def RedirectURL_v1 (lookup : String → Except LookupError UrlMapping)
    (now : Nat) (shortCode : String) : ResolveOutcome :=
  match lookup shortCode with
  | Except.error LookupError.recordNotFound => ResolveOutcome.notFound
  | Except.error LookupError.internal => ResolveOutcome.serverError
  | Except.ok urlMapping =>
    if optBefore urlMapping.intendedExpiryDate now then
      ResolveOutcome.gone
    else if urlMapping.status ≠ "live" then
      ResolveOutcome.gone
    else
      ResolveOutcome.redirect urlMapping.originalUrl

/-- RedirectURL, version 2 (url_controller.go lines 298-320): identical lookup
and status test, but with no expiry test at all. -/
def RedirectURL_v2 (lookup : String → Except LookupError UrlMapping)
    (shortCode : String) : ResolveOutcome :=
  match lookup shortCode with
  | Except.error LookupError.recordNotFound => ResolveOutcome.notFound
  | Except.error LookupError.internal => ResolveOutcome.serverError
  | Except.ok urlMapping =>
    if urlMapping.status ≠ "live" then
      ResolveOutcome.gone
    else
      ResolveOutcome.redirect urlMapping.originalUrl

/-- Request payload of the v2 ShortenURL handler (no expiry field). -/
structure ShortenRequestV2 where
  url : String
  intendedLiveDate : Option Nat
deriving DecidableEq

/-- Outcomes of the v2 ShortenURL handler, one per response branch. -/
inductive OutcomeV2 where
  | invalidPayload
  | invalidURL (e : ValidationError)
  | unsafeURL
  | liveCheckError
  | liveDateNotFuture
  | dbError
  | success (mapping : UrlMapping)
deriving DecidableEq

/-- True exactly on the success outcome. -/
def OutcomeV2.isSuccess : OutcomeV2 → Bool
  | OutcomeV2.success _ => true
  | _ => false

/-- Status of the created mapping on success, none otherwise. -/
def OutcomeV2.statusOf : OutcomeV2 → Option String
  | OutcomeV2.success m => some m.status
  | _ => none

/-- External collaborators of the v2 creation pipeline: parser, the redirect
probe (a HEAD request reporting whether the URL answers 301/302 and how many
hops), the safe-browsing verdict as the v2 caller consumes it (a single
boolean), the CheckIfURLIsLive probe, clock, generator, store and the id that
Persistence will assign. -/
structure EnvV2 where
  parse : String → Option ParsedURL
  checkRedirects : String → Bool × Nat
  safeBrowsing : String → Bool
  checkIfLive : String → Except Unit Bool
  now : Nat
  gen : Nat → String
  existingCodes : List String
  nextId : Nat

/-- ShortenURL, version 2 (url_controller.go lines 211-295): decode guard,
syntax validation, redirect probe (logged only), safe-browsing check (an
unsafe verdict aborts the request), liveness probe (a transport failure is a
server error), status live or inactive, rejection of a past intendedLiveDate
for a non-live URL, one generation and one insert attempt, and scheduling of
a deferred check when the URL is not live and an intendedLiveDate was given.
Returns the outcome and the trace of side effects. -/
def ShortenURL_v2 (env : EnvV2) (req : ShortenRequestV2) :
    OutcomeV2 × List Event :=
  if req.url = "" then (OutcomeV2.invalidPayload, [])
  else
    match ValidateURLSyntax env.parse req.url with
    | some e => (OutcomeV2.invalidURL e, [])
    | none =>
      let _hasRedirect := env.checkRedirects req.url
      let isSafe := env.safeBrowsing req.url
      let tr0 := [Event.headRequest req.url, Event.safeBrowsingRequest req.url]
      if ¬ isSafe then (OutcomeV2.unsafeURL, tr0)
      else
        match env.checkIfLive req.url with
        | Except.error _ =>
          (OutcomeV2.liveCheckError, tr0 ++ [Event.headRequest req.url])
        | Except.ok isLive =>
          let tr1 := tr0 ++ [Event.headRequest req.url]
          let status : String := if isLive then "live" else "inactive"
          if (!isLive) && optBefore req.intendedLiveDate env.now then
            (OutcomeV2.liveDateNotFuture, tr1)
          else
            let shortCode := env.gen 0
            if env.existingCodes.contains shortCode then
              (OutcomeV2.dbError, tr1 ++ [Event.insertMapping shortCode])
            else
              let urlMapping : UrlMapping :=
                { id := env.nextId
                  shortCode := shortCode
                  originalUrl := req.url
                  intendedLiveDate := req.intendedLiveDate
                  intendedExpiryDate := none
                  status := status
                  lastCheckedAt := env.now }
              let tr2 := tr1 ++ [Event.insertMapping shortCode]
              match req.intendedLiveDate with
              | some d =>
                if !isLive then
                  (OutcomeV2.success urlMapping,
                    tr2 ++ [Event.scheduleCheck env.nextId d])
                else (OutcomeV2.success urlMapping, tr2)
              | none => (OutcomeV2.success urlMapping, tr2)

/-- The deferred callback installed by scheduleURLCheck (url_controller.go
lines 366-392): re-fetch the mapping by id (a fetch error drops the firing),
re-run CheckIfURLIsLive on the stored originalUrl (a probe error drops the
firing), and on a live verdict update the stored status to live; otherwise
nothing is written.  The returned value is the status update performed, if
any.  Note the callback consults neither the clock nor intendedExpiryDate. -/
def scheduledCheckCallback (findById : Nat → Option UrlMapping)
    (checkIfLive : String → Except Unit Bool)
    (urlID : Nat) : Option (Nat × String) :=
  match findById urlID with
  | none => none
  | some urlMapping =>
    match checkIfLive urlMapping.originalUrl with
    | Except.error _ => none
    | Except.ok isLive =>
      if isLive then some (urlID, "live") else none

/-- Application configuration (config/config.go). -/
structure Config where
  port : String
  safeBrowsingAPIKey : String
  dbConnectionString : String
deriving DecidableEq

/-- One match entry of the Safe Browsing v4 response body. -/
structure SBMatch where
  threatType : String
  platformType : String
  threatEntryType : String
  threatURL : String
deriving DecidableEq

/-- Safe Browsing v4 response body (utils/validation.go lines 24-33); the
field is named Matches in the source. -/
structure SafeBrowsingResponse where
  threatMatches : List SBMatch
deriving DecidableEq

/-- SafeBrowsingResult from utils/validation.go lines 36-39. -/
structure SafeBrowsingResult where
  isSafe : Bool
  message : String
deriving DecidableEq

/-- The error cases of CheckSafeBrowsing, in source order: missing API key,
json.Marshal failure, http.Post failure, response decode failure. -/
inductive SBError where
  | apiKeyMissing
  | marshalError
  | postError
  | decodeError
deriving DecidableEq

/-- External effects of CheckSafeBrowsing: the outcome of marshalling the
request body, of the POST to the threat-intelligence endpoint, and of
decoding the response body. -/
structure SBEnv where
  marshal : Except Unit String
  post : Except Unit Unit
  decode : Except Unit SafeBrowsingResponse

/-- CheckSafeBrowsing from utils/validation.go lines 78-125: the result is
initialised to isSafe true with the default message, and every error path
returns that value unchanged alongside the error; only a decoded response
with a non-empty match list flips it to unsafe, naming the first threat
type. -/
def CheckSafeBrowsing (env : SBEnv) (cfg : Config)
    (inputURL : String) : SafeBrowsingResult × Option SBError :=
  let result : SafeBrowsingResult := { isSafe := true, message := "URL is safe" }
  let apiKey := cfg.safeBrowsingAPIKey
  if apiKey = "" then (result, some SBError.apiKeyMissing)
  else
    match env.marshal with
    | Except.error _ => (result, some SBError.marshalError)
    | Except.ok _ =>
      match env.post with
      | Except.error _ => (result, some SBError.postError)
      | Except.ok _ =>
        match env.decode with
        | Except.error _ => (result, some SBError.decodeError)
        | Except.ok sbResp =>
          match sbResp.threatMatches with
          | [] => (result, none)
          | m :: _ =>
            ({ isSafe := false
               message :=
                 "URL is unsafe: " ++ inputURL ++ ". Threat type: " ++ m.threatType },
              none)

/-! ## Concrete fixtures used by witnesses and counterexamples -/

/-- A parse oracle covering the concrete URLs used below, mirroring what Go
url.Parse returns on them. -/
def demoParse : String → Option ParsedURL := fun s =>
  if s = "https://example.com" then some { scheme := "https", host := "example.com" }
  else if s = "http://example.com" then some { scheme := "http", host := "example.com" }
  else if s = "https://evil.example" then some { scheme := "https", host := "evil.example" }
  else none

/-- A mapping whose stored status is live but whose expiry instant (5) has
passed at read time 10. -/
def expiredLiveMapping : UrlMapping :=
  { id := 1
    shortCode := "abc12345"
    originalUrl := "https://example.com"
    intendedLiveDate := none
    intendedExpiryDate := some 5
    status := "live"
    lastCheckedAt := 0 }

/-- A store holding exactly the expired-but-live mapping. -/
def lookupExpiredLive : String → Except LookupError UrlMapping := fun c =>
  if c = "abc12345" then Except.ok expiredLiveMapping
  else Except.error LookupError.recordNotFound

/-- v1 environment whose probe answers 404 on every URL. -/
def envHead404 : EnvV1 :=
  { parse := demoParse
    head := fun _ => Except.ok { statusCode := 404, location := "" }
    now := 0
    gen := fun _ => "aaaa0000"
    existingCodes := []
    nextId := 1 }

/-- v1 environment whose probe fails at the transport level. -/
def envHeadFails : EnvV1 :=
  { parse := demoParse
    head := fun _ => Except.error ()
    now := 0
    gen := fun _ => "aaaa0000"
    existingCodes := []
    nextId := 1 }

/-- v1 environment with a reachable destination, now = 10, and a store that
already holds the first code the generator will produce (while the second
attempt would produce a fresh one). -/
def envConflict : EnvV1 :=
  { parse := demoParse
    head := fun _ => Except.ok { statusCode := 200, location := "" }
    now := 10
    gen := fun n => if n = 0 then "aaaa0000" else "bbbb1111"
    existingCodes := ["aaaa0000"]
    nextId := 1 }

/-- Request with a future intendedLiveDate (100, against now = 0). -/
def reqFutureLive : ShortenRequestV1 :=
  { url := "https://example.com", intendedLiveDate := some 100, intendedExpiryDate := none }

/-- Plain request with no optional dates. -/
def reqPlain : ShortenRequestV1 :=
  { url := "https://example.com", intendedLiveDate := none, intendedExpiryDate := none }

/-- Request whose expiry instant (3) is in the past against now = 10. -/
def reqPastExpiry : ShortenRequestV1 :=
  { url := "https://example.com", intendedLiveDate := none, intendedExpiryDate := some 3 }

/-- The mapping the v1 pipeline inserts for reqPlain under envHead404: the
destination answered 404, so the stored status is inactive. -/
def mapping404 : UrlMapping :=
  { id := 1
    shortCode := "aaaa0000"
    originalUrl := "https://example.com"
    intendedLiveDate := none
    intendedExpiryDate := none
    status := "inactive"
    lastCheckedAt := 0 }

/-- v2 environment flagging every URL as unsafe. -/
def envUnsafe : EnvV2 :=
  { parse := demoParse
    checkRedirects := fun _ => (false, 0)
    safeBrowsing := fun _ => false
    checkIfLive := fun _ => Except.ok true
    now := 0
    gen := fun _ => "aaaa0000"
    existingCodes := []
    nextId := 1 }

/-- v2 environment: safe, but the destination is not live. -/
def envNotLive : EnvV2 :=
  { parse := demoParse
    checkRedirects := fun _ => (false, 0)
    safeBrowsing := fun _ => true
    checkIfLive := fun _ => Except.ok false
    now := 0
    gen := fun _ => "aaaa0000"
    existingCodes := []
    nextId := 7 }

/-- v2 request for the flagged URL. -/
def reqEvil : ShortenRequestV2 :=
  { url := "https://evil.example", intendedLiveDate := none }

/-- v2 request with a future intendedLiveDate. -/
def reqFutureLiveV2 : ShortenRequestV2 :=
  { url := "https://example.com", intendedLiveDate := some 100 }

/-- A mapping that is past its expiry instant (5 < 10) with status inactive,
as the scheduler would find it at fire time. -/
def expiredInactiveMapping : UrlMapping :=
  { id := 7
    shortCode := "aaaa0000"
    originalUrl := "https://example.com"
    intendedLiveDate := some 3
    intendedExpiryDate := some 5
    status := "inactive"
    lastCheckedAt := 0 }

/-- A by-id store holding exactly the expired inactive mapping under id 7. -/
def findByIdExpired : Nat → Option UrlMapping := fun i =>
  if i = 7 then some expiredInactiveMapping else none

/-- Safe-browsing effect environment in which every external step succeeds
and the response holds no matches. -/
def sbEnvAllOk : SBEnv :=
  { marshal := Except.ok "body"
    post := Except.ok ()
    decode := Except.ok { threatMatches := [] } }

/-- A configuration with no safe-browsing API key. -/
def cfgNoKey : Config :=
  { port := "8080", safeBrowsingAPIKey := "", dbConnectionString := "" }

/-! ## Claim theorems -/

/-- Claim C10: whenever CheckSafeBrowsing returns a non-nil error (missing
API credential, marshalling failure, upstream request failure, or a response
that fails to decode), the SafeBrowsingResult returned alongside the error is
the fail-open default: isSafe true with the message "URL is safe". -/
theorem checkSafeBrowsing_fails_open (env : SBEnv) (cfg : Config)
    (inputURL : String) (e : SBError)
    (h : (CheckSafeBrowsing env cfg inputURL).2 = some e) :
    (CheckSafeBrowsing env cfg inputURL).1 =
      { isSafe := true, message := "URL is safe" } := by
  by_cases hk : cfg.safeBrowsingAPIKey = ""
  · simp [CheckSafeBrowsing, hk]
  · rcases hm : env.marshal with u | s
    · simp [CheckSafeBrowsing, hk, hm]
    · rcases hp : env.post with u | v
      · simp [CheckSafeBrowsing, hk, hm, hp]
      · rcases hd : env.decode with u | resp
        · simp [CheckSafeBrowsing, hk, hm, hp, hd]
        · rcases hms : resp.threatMatches with _ | ⟨m, rest⟩
          · simp [CheckSafeBrowsing, hk, hm, hp, hd, hms] at h
          · simp [CheckSafeBrowsing, hk, hm, hp, hd, hms] at h

/-- Witness for C10: with no API key configured, the check reports the
missing-credential error and the fail-open safe result. -/
theorem checkSafeBrowsing_fails_open_witness :
    (CheckSafeBrowsing sbEnvAllOk cfgNoKey "https://example.com").2 =
      some SBError.apiKeyMissing ∧
    (CheckSafeBrowsing sbEnvAllOk cfgNoKey "https://example.com").1 =
      { isSafe := true, message := "URL is safe" } :=
  ⟨by decide,
   checkSafeBrowsing_fails_open sbEnvAllOk cfgNoKey "https://example.com"
     SBError.apiKeyMissing (by decide)⟩

/-- Claim C1 counterexample: a stored mapping with status live whose
intendedExpiryDate (5) has passed at read time 10 is still redirected by the
v2 resolver, which performs no expiry test, where the claim requires Gone. -/
theorem resolve_v2_serves_expired_live_mapping :
    lookupExpiredLive "abc12345" = Except.ok expiredLiveMapping ∧
    expiredLiveMapping.intendedExpiryDate = some 5 ∧ 5 < 10 ∧
    expiredLiveMapping.status = "live" ∧
    RedirectURL_v2 lookupExpiredLive "abc12345" =
      ResolveOutcome.redirect "https://example.com" := by decide

/-- Claim C1 (amended): the v1 resolver behaves exactly as the claim states:
an absent code gives NotFound, a passed expiry gives Gone regardless of the
stored status, a non-live status gives Gone, and otherwise the redirect
targets originalUrl unchanged.  The v2 resolver satisfies the same clauses
except that it performs no expiry test at all. -/
theorem resolve_claim_amended :
    (∀ (lookup : String → Except LookupError UrlMapping) (now : Nat) (code : String),
      lookup code = Except.error LookupError.recordNotFound →
      RedirectURL_v1 lookup now code = ResolveOutcome.notFound) ∧
    (∀ (lookup : String → Except LookupError UrlMapping) (now : Nat) (code : String)
        (m : UrlMapping) (e : Nat),
      lookup code = Except.ok m → m.intendedExpiryDate = some e → e < now →
      RedirectURL_v1 lookup now code = ResolveOutcome.gone) ∧
    (∀ (lookup : String → Except LookupError UrlMapping) (now : Nat) (code : String)
        (m : UrlMapping),
      lookup code = Except.ok m → optBefore m.intendedExpiryDate now = false →
      m.status ≠ "live" →
      RedirectURL_v1 lookup now code = ResolveOutcome.gone) ∧
    (∀ (lookup : String → Except LookupError UrlMapping) (now : Nat) (code : String)
        (m : UrlMapping),
      lookup code = Except.ok m → optBefore m.intendedExpiryDate now = false →
      m.status = "live" →
      RedirectURL_v1 lookup now code = ResolveOutcome.redirect m.originalUrl) ∧
    (∀ (lookup : String → Except LookupError UrlMapping) (code : String),
      lookup code = Except.error LookupError.recordNotFound →
      RedirectURL_v2 lookup code = ResolveOutcome.notFound) ∧
    (∀ (lookup : String → Except LookupError UrlMapping) (code : String) (m : UrlMapping),
      lookup code = Except.ok m → m.status ≠ "live" →
      RedirectURL_v2 lookup code = ResolveOutcome.gone) ∧
    (∀ (lookup : String → Except LookupError UrlMapping) (code : String) (m : UrlMapping),
      lookup code = Except.ok m → m.status = "live" →
      RedirectURL_v2 lookup code = ResolveOutcome.redirect m.originalUrl) := by
  refine ⟨?_, ?_, ?_, ?_, ?_, ?_, ?_⟩
  · intro lookup now code h
    simp [RedirectURL_v1, h]
  · intro lookup now code m e h he hlt
    simp [RedirectURL_v1, h, optBefore, he, hlt]
  · intro lookup now code m h hexp hst
    simp [RedirectURL_v1, h, hexp, hst]
  · intro lookup now code m h hexp hst
    simp [RedirectURL_v1, h, hexp, hst]
  · intro lookup code h
    simp [RedirectURL_v2, h]
  · intro lookup code m h hst
    simp [RedirectURL_v2, h, hst]
  · intro lookup code m h hst
    simp [RedirectURL_v2, h, hst]

/-- Witness for C1 (amended), applying the expiry clause at the concrete
expired-but-live mapping: the v1 resolver answers Gone at time 10. -/
theorem resolve_claim_amended_witness :
    RedirectURL_v1 lookupExpiredLive 10 "abc12345" = ResolveOutcome.gone :=
  resolve_claim_amended.2.1 lookupExpiredLive 10 "abc12345" expiredLiveMapping 5
    (by decide) (by decide) (by decide)

/-- Claim C6, evaluated at a flagged URL: the v2 handler aborts the creation
as unsafe, but its side-effect trace holds no MaliciousLog insert at all
(logMaliciousURL is defined and would produce the record with the fixed risk
score 5 and description, yet no handler path invokes it). -/
theorem unsafe_url_writes_no_malicious_log :
    ShortenURL_v2 envUnsafe reqEvil =
      (OutcomeV2.unsafeURL,
        [Event.headRequest "https://evil.example",
         Event.safeBrowsingRequest "https://evil.example"]) ∧
    ((ShortenURL_v2 envUnsafe reqEvil).2).countP
        (fun ev => match ev with | Event.insertMaliciousLog _ => true | _ => false) = 0 ∧
    logMaliciousURL "https://evil.example" "agent" "1.2.3.4" =
      { url := "https://evil.example", userAgent := "agent", ipAddress := "1.2.3.4",
        riskScore := 5, details := "Failed Safe Browsing check" } := by decide

/-- Claim C9 counterexample: the scheduled callback takes no clock and reads
no expiry: at any fire time (for instance 10, past the expiry instant 5 of
the stored mapping) it promotes the expired mapping to live as soon as the
destination answers, where the claim requires self-suppression. -/
theorem callback_promotes_expired_mapping :
    expiredInactiveMapping.intendedExpiryDate = some 5 ∧ 5 < 10 ∧
    scheduledCheckCallback findByIdExpired (fun _ => Except.ok true) 7 =
      some (7, "live") := by decide

/-- Claim C9 (amended): the scheduled callback performs no expiry
self-suppression: for every stored mapping carrying an intendedExpiryDate
(whatever its value, hence also one already passed), a reachable destination
makes the callback write status live. -/
theorem callback_no_expiry_suppression
    (findById : Nat → Option UrlMapping) (checkIfLive : String → Except Unit Bool)
    (urlID e : Nat) (m : UrlMapping)
    (hm : findById urlID = some m) (_he : m.intendedExpiryDate = some e)
    (hl : checkIfLive m.originalUrl = Except.ok true) :
    scheduledCheckCallback findById checkIfLive urlID = some (urlID, "live") := by
  simp [scheduledCheckCallback, hm, hl]

/-- Witness for C9 (amended) at the concrete expired mapping. -/
theorem callback_no_expiry_suppression_witness :
    scheduledCheckCallback findByIdExpired (fun _ => Except.ok true) 7 =
      some (7, "live") :=
  callback_no_expiry_suppression findByIdExpired (fun _ => Except.ok true) 7 5
    expiredInactiveMapping (by decide) (by decide) (by decide)

/-- Helper inversion: a successful CheckURLStatus means the HEAD request went
through, and the reported status code is the one the probe answered. -/
theorem checkURLStatus_ok_inversion (parse : String → Option ParsedURL)
    (head : String → Except Unit HeadResponse) (u : String) (res : URLCheckResult)
    (h : CheckURLStatus parse head u = Except.ok res) :
    ∃ r, head u = Except.ok r ∧ res.statusCode = r.statusCode := by
  rcases hp : parse u with _ | p
  · simp [CheckURLStatus, hp] at h
  · simp only [CheckURLStatus, hp] at h
    by_cases hse : p.scheme = "" ∨ p.host = ""
    · rw [if_pos hse] at h
      simp at h
    · rw [if_neg hse] at h
      rcases hr : head u with _ | r
      · rw [hr] at h
        simp at h
      · rw [hr] at h
        refine ⟨r, rfl, ?_⟩
        have hres := Except.ok.inj h
        rw [← hres]

/-- Helper inversion: a successful v1 creation reached the final branch, so
the probe result determined the stored status, both date checks passed, the
store had no conflicting code, and the request fields were stored
unchanged. -/
theorem shortenV1_success_inversion (env : EnvV1) (req : ShortenRequestV1)
    (m : UrlMapping) (tr : List Event)
    (h : ShortenURL_v1 env req = (OutcomeV1.success m, tr)) :
    ∃ res, CheckURLStatus env.parse env.head req.url = Except.ok res ∧
      m.status =
        (if 200 ≤ res.statusCode ∧ res.statusCode < 300 then "live" else "inactive") ∧
      optBefore req.intendedExpiryDate env.now = false ∧
      optAfterOpt req.intendedLiveDate req.intendedExpiryDate = false ∧
      m.intendedLiveDate = req.intendedLiveDate ∧
      m.intendedExpiryDate = req.intendedExpiryDate := by
  by_cases hu : req.url = ""
  · simp [ShortenURL_v1, hu] at h
  · rcases hv : ValidateURLSyntax env.parse req.url with _ | e
    · rcases hcs : CheckURLStatus env.parse env.head req.url with ce | res
      · simp [ShortenURL_v1, hu, hv, hcs] at h
      · refine ⟨res, rfl, ?_⟩
        simp only [ShortenURL_v1, hu, hv, hcs, if_neg hu] at h
        cases hd1 : optBefore req.intendedExpiryDate env.now with
        | true => rw [hd1] at h; simp at h
        | false =>
          rw [hd1] at h
          cases hd2 : optAfterOpt req.intendedLiveDate req.intendedExpiryDate with
          | true => rw [hd2] at h; simp at h
          | false =>
            rw [hd2] at h
            cases hc : env.existingCodes.contains (env.gen 0) with
            | true => rw [hc] at h; simp at h
            | false =>
              rw [hc] at h
              simp only [Bool.false_eq_true, if_false] at h
              have hm2 := OutcomeV1.success.inj (congrArg Prod.fst h)
              refine ⟨?_, rfl, rfl, ?_, ?_⟩
              · rw [← hm2]
                by_cases hP : 200 ≤ res.statusCode ∧ res.statusCode < 300 <;>
                  simp [hP]
              · rw [← hm2]
              · rw [← hm2]
    · simp [ShortenURL_v1, hu, hv] at h

/-- Helper: a parsed https URL with a non-empty host passes
ValidateURLSyntax. -/
theorem validateURLSyntax_ok (parse : String → Option ParsedURL) (u : String)
    (p : ParsedURL) (hp : parse u = some p) (hs : p.scheme = "https")
    (hh : p.host ≠ "") : ValidateURLSyntax parse u = none := by
  simp only [ValidateURLSyntax, hp]
  rw [if_neg ?h1, if_neg ?h2]
  case h1 =>
    push_neg
    exact ⟨by rw [hs]; decide, hh⟩
  case h2 =>
    exact fun hcon => hcon hs

/-- Helper: CheckURLStatus on a parsed https URL whose probe answers. -/
theorem checkURLStatus_ok (parse : String → Option ParsedURL)
    (head : String → Except Unit HeadResponse) (u : String)
    (p : ParsedURL) (r : HeadResponse)
    (hp : parse u = some p) (hs : p.scheme = "https") (hh : p.host ≠ "")
    (hr : head u = Except.ok r) :
    CheckURLStatus parse head u =
      Except.ok
        { statusCode := r.statusCode
          isHTTPS := decide (p.scheme = "https")
          redirectURL :=
            if r.statusCode = 301 ∨ r.statusCode = 302 then r.location else "" } := by
  simp only [CheckURLStatus, hp, hr]
  rw [if_neg ?h1]
  case h1 =>
    push_neg
    exact ⟨by rw [hs]; decide, hh⟩

/-- Helper: CheckURLStatus when the probe fails at the transport level. -/
theorem checkURLStatus_headFailed (parse : String → Option ParsedURL)
    (head : String → Except Unit HeadResponse) (u : String) (p : ParsedURL)
    (hp : parse u = some p) (hs : p.scheme = "https") (hh : p.host ≠ "")
    (hr : head u = Except.error ()) :
    CheckURLStatus parse head u = Except.error CheckStatusError.headFailed := by
  simp only [CheckURLStatus, hp, hr]
  rw [if_neg ?h1]
  case h1 =>
    push_neg
    exact ⟨by rw [hs]; decide, hh⟩

/-- Helper inversion: a successful v2 creation reached the final branch: the
liveness verdict determined the stored status, the mapping took the id that
Persistence assigned, the request intendedLiveDate was stored unchanged, and
any scheduled check in the trace stems from a negative verdict together with
a supplied intendedLiveDate, firing at that date for the assigned id. -/
theorem shortenV2_success_inversion (env : EnvV2) (req : ShortenRequestV2)
    (m : UrlMapping) (tr : List Event)
    (h : ShortenURL_v2 env req = (OutcomeV2.success m, tr)) :
    ∃ b : Bool, env.checkIfLive req.url = Except.ok b ∧
      m.status = (if b then "live" else "inactive") ∧
      m.id = env.nextId ∧
      m.intendedLiveDate = req.intendedLiveDate ∧
      (∀ i d, Event.scheduleCheck i d ∈ tr →
        b = false ∧ i = env.nextId ∧ req.intendedLiveDate = some d) := by
  by_cases hu : req.url = ""
  · simp [ShortenURL_v2, hu] at h
  · rcases hv : ValidateURLSyntax env.parse req.url with _ | e
    · rcases Bool.eq_false_or_eq_true (env.safeBrowsing req.url) with hs | hs
      · rcases hl : env.checkIfLive req.url with u | b
        · simp [ShortenURL_v2, hu, hv, hs, hl] at h
        · refine ⟨b, rfl, ?_⟩
          cases b with
          | true =>
            by_cases hcm : env.gen 0 ∈ env.existingCodes
            · simp [ShortenURL_v2, hu, hv, hs, hl, hcm] at h
            · rcases hld : req.intendedLiveDate with _ | d
              · simp [ShortenURL_v2, hu, hv, hs, hl, hcm, hld] at h
                obtain ⟨hm, htr⟩ := h
                refine ⟨by simp [← hm], by simp [← hm], by simp [← hm], ?_⟩
                intro i d0 hmem
                rw [← htr] at hmem
                simp at hmem
              · simp [ShortenURL_v2, hu, hv, hs, hl, hcm, hld] at h
                obtain ⟨hm, htr⟩ := h
                refine ⟨by simp [← hm], by simp [← hm], by simp [← hm], ?_⟩
                intro i d0 hmem
                rw [← htr] at hmem
                simp at hmem
          | false =>
            rcases hld : req.intendedLiveDate with _ | d
            · by_cases hcm : env.gen 0 ∈ env.existingCodes
              · simp [ShortenURL_v2, hu, hv, hs, hl, hcm, hld, optBefore] at h
              · simp [ShortenURL_v2, hu, hv, hs, hl, hcm, hld, optBefore] at h
                obtain ⟨hm, htr⟩ := h
                refine ⟨by simp [← hm], by simp [← hm], by simp [← hm], ?_⟩
                intro i d0 hmem
                rw [← htr] at hmem
                simp at hmem
            · rcases Bool.eq_false_or_eq_true
                  (optBefore (some d) env.now) with hcond | hcond
              · simp [ShortenURL_v2, hu, hv, hs, hl, hld, hcond] at h
              · by_cases hcm : env.gen 0 ∈ env.existingCodes
                · simp [ShortenURL_v2, hu, hv, hs, hl, hcm, hld, hcond] at h
                · simp [ShortenURL_v2, hu, hv, hs, hl, hcm, hld, hcond] at h
                  obtain ⟨hm, htr⟩ := h
                  refine ⟨by simp [← hm], by simp [← hm], by simp [← hm], ?_⟩
                  intro i d0 hmem
                  rw [← htr] at hmem
                  simp at hmem
                  exact ⟨rfl, hmem.1, by rw [hmem.2]⟩
      · simp [ShortenURL_v2, hu, hv, hs] at h
    · simp [ShortenURL_v2, hu, hv] at h

/-- Claim C2 counterexample: a v1 request whose probe answers 404 and which
supplies a future intendedLiveDate (100, against now 0) is created with
status "inactive", not "pending" as the claim requires. -/
theorem initial_status_never_pending_counterexample :
    envHead404.head reqFutureLive.url =
      Except.ok { statusCode := 404, location := "" } ∧
    reqFutureLive.intendedLiveDate = some 100 ∧ envHead404.now < 100 ∧
    ((ShortenURL_v1 envHead404 reqFutureLive).1).statusOf = some "inactive" := by
  decide

/-- Claim C2 (amended): for every successful creation the initial status is
live exactly when the liveness verdict at submission time was positive (a
2xx probe answer in v1, a true CheckIfURLIsLive verdict in v2), and inactive
otherwise; the status pending is never assigned, also when a future
intendedLiveDate was supplied. -/
theorem initial_status_live_or_inactive :
    (∀ (env : EnvV1) (req : ShortenRequestV1) (m : UrlMapping) (tr : List Event)
        (r : HeadResponse),
      ShortenURL_v1 env req = (OutcomeV1.success m, tr) →
      env.head req.url = Except.ok r →
      ((m.status = "live" ↔ (200 ≤ r.statusCode ∧ r.statusCode < 300)) ∧
        m.status ≠ "pending")) ∧
    (∀ (env : EnvV2) (req : ShortenRequestV2) (m : UrlMapping) (tr : List Event)
        (b : Bool),
      ShortenURL_v2 env req = (OutcomeV2.success m, tr) →
      env.checkIfLive req.url = Except.ok b →
      ((m.status = "live" ↔ b = true) ∧ m.status ≠ "pending")) := by
  constructor
  · intro env req m tr r h hr
    obtain ⟨res, hcs, hstat, -, -, -, -⟩ := shortenV1_success_inversion env req m tr h
    obtain ⟨r2, hr2, hsc⟩ :=
      checkURLStatus_ok_inversion env.parse env.head req.url res hcs
    rw [hr] at hr2
    have hrr := Except.ok.inj hr2
    rw [← hrr] at hsc
    constructor
    · rw [hstat, hsc]
      by_cases hP : 200 ≤ r.statusCode ∧ r.statusCode < 300
      · simp [hP]
      · simp [hP]
    · rw [hstat]
      by_cases hP : 200 ≤ res.statusCode ∧ res.statusCode < 300
      · simp [hP]
      · simp [hP]
  · intro env req m tr b h hb
    obtain ⟨b2, hb2, hstat, -, -, -⟩ := shortenV2_success_inversion env req m tr h
    rw [hb] at hb2
    have hbb := Except.ok.inj hb2
    rw [hstat, ← hbb]
    constructor
    · cases b <;> simp
    · cases b <;> simp

/-- Witness for C2 (amended) at a concrete success: envHead404 and reqPlain
insert mapping404, whose status is not live (404 is not 2xx) and not
pending. -/
theorem initial_status_live_or_inactive_witness :
    (mapping404.status = "live" ↔
      (200 ≤ (404 : Nat) ∧ (404 : Nat) < 300)) ∧
    mapping404.status ≠ "pending" :=
  initial_status_live_or_inactive.1 envHead404 reqPlain mapping404
    [Event.headRequest "https://example.com", Event.insertMapping "aaaa0000"]
    { statusCode := 404, location := "" } (by decide) (by decide)

/-- Claim C3: the validator classifies a parse failure, an empty scheme or an
empty host as InvalidSyntax, and an otherwise well-formed URL whose scheme is
not https as NotHttps; and in both pipelines a validation failure rejects the
creation with that error before any outbound network call (the side-effect
trace is empty). -/
theorem syntax_validation_rejects_before_network :
    (∀ (parse : String → Option ParsedURL) (u : String),
      parse u = none →
      ValidateURLSyntax parse u = some ValidationError.invalidURLSyntax) ∧
    (∀ (parse : String → Option ParsedURL) (u : String) (p : ParsedURL),
      parse u = some p → (p.scheme = "" ∨ p.host = "") →
      ValidateURLSyntax parse u = some ValidationError.invalidURLSyntax) ∧
    (∀ (parse : String → Option ParsedURL) (u : String) (p : ParsedURL),
      parse u = some p → p.scheme ≠ "" → p.host ≠ "" → p.scheme ≠ "https" →
      ValidateURLSyntax parse u = some ValidationError.urlNotHTTPS) ∧
    (∀ (env : EnvV1) (req : ShortenRequestV1) (e : ValidationError),
      req.url ≠ "" → ValidateURLSyntax env.parse req.url = some e →
      ShortenURL_v1 env req = (OutcomeV1.invalidURL e, [])) ∧
    (∀ (env : EnvV2) (req : ShortenRequestV2) (e : ValidationError),
      req.url ≠ "" → ValidateURLSyntax env.parse req.url = some e →
      ShortenURL_v2 env req = (OutcomeV2.invalidURL e, [])) := by
  refine ⟨?_, ?_, ?_, ?_, ?_⟩
  · intro parse u hp
    simp [ValidateURLSyntax, hp]
  · intro parse u p hp hse
    simp only [ValidateURLSyntax, hp]
    rw [if_pos hse]
  · intro parse u p hp hs1 hh hs2
    simp only [ValidateURLSyntax, hp]
    rw [if_neg (by push_neg; exact ⟨hs1, hh⟩), if_pos hs2]
  · intro env req e hu hv
    simp [ShortenURL_v1, hu, hv]
  · intro env req e hu hv
    simp [ShortenURL_v2, hu, hv]

/-- Witness for C3 at the concrete input http://example.com: the scheme is
http, so the validator answers NotHttps. -/
theorem syntax_validation_rejects_before_network_witness :
    ValidateURLSyntax demoParse "http://example.com" =
      some ValidationError.urlNotHTTPS :=
  syntax_validation_rejects_before_network.2.2.1 demoParse "http://example.com"
    { scheme := "http", host := "example.com" }
    (by decide) (by decide) (by decide) (by decide)

/-- Claim C4: a supplied intendedExpiryDate lying strictly before the current
time makes the v1 creation fail whatever the other fields hold, and supplied
dates with intendedLiveDate strictly after intendedExpiryDate also make it
fail. -/
theorem creation_rejects_bad_dates :
    (∀ (env : EnvV1) (req : ShortenRequestV1) (e : Nat),
      req.intendedExpiryDate = some e → e < env.now →
      ((ShortenURL_v1 env req).1).isSuccess = false) ∧
    (∀ (env : EnvV1) (req : ShortenRequestV1) (l e : Nat),
      req.intendedLiveDate = some l → req.intendedExpiryDate = some e → e < l →
      ((ShortenURL_v1 env req).1).isSuccess = false) := by
  constructor
  · intro env req e he hlt
    rcases hout : ShortenURL_v1 env req with ⟨o, tr⟩
    rcases o with _ | e2 | _ | _ | _ | _ | m
    · simp [OutcomeV1.isSuccess]
    · simp [OutcomeV1.isSuccess]
    · simp [OutcomeV1.isSuccess]
    · simp [OutcomeV1.isSuccess]
    · simp [OutcomeV1.isSuccess]
    · simp [OutcomeV1.isSuccess]
    · obtain ⟨res, -, -, hd1, -, -, -⟩ :=
        shortenV1_success_inversion env req m tr hout
      rw [he] at hd1
      simp [optBefore] at hd1
      exact absurd hlt (Nat.not_lt.mpr hd1)
  · intro env req l e hl he hlt
    rcases hout : ShortenURL_v1 env req with ⟨o, tr⟩
    rcases o with _ | e2 | _ | _ | _ | _ | m
    · simp [OutcomeV1.isSuccess]
    · simp [OutcomeV1.isSuccess]
    · simp [OutcomeV1.isSuccess]
    · simp [OutcomeV1.isSuccess]
    · simp [OutcomeV1.isSuccess]
    · simp [OutcomeV1.isSuccess]
    · obtain ⟨res, -, -, -, hd2, -, -⟩ :=
        shortenV1_success_inversion env req m tr hout
      rw [hl, he] at hd2
      simp [optAfterOpt] at hd2
      exact absurd hlt (Nat.not_lt.mpr hd2)

/-- Witness for C4: a request with expiry instant 3 against now 10 is
rejected. -/
theorem creation_rejects_bad_dates_witness :
    (3 : Nat) < 10 ∧
    ((ShortenURL_v1
        { parse := demoParse
          head := fun _ => Except.ok { statusCode := 200, location := "" }
          now := 10
          gen := fun _ => "aaaa0000"
          existingCodes := []
          nextId := 1 } reqPastExpiry).1).isSuccess = false :=
  ⟨by decide,
   creation_rejects_bad_dates.1
     { parse := demoParse
       head := fun _ => Except.ok { statusCode := 200, location := "" }
       now := 10
       gen := fun _ => "aaaa0000"
       existingCodes := []
       nextId := 1 } reqPastExpiry 3 (by decide) (by decide)⟩

/-- Claim C5 counterexample: with valid syntax and no other obstacle, a probe
that fails at the transport level makes the v1 handler reject the submission
with a server error instead of accepting it as pending or inactive. -/
theorem probe_network_failure_rejected :
    envHeadFails.head reqPlain.url = Except.error () ∧
    ShortenURL_v1 envHeadFails reqPlain =
      (OutcomeV1.checkStatusError, [Event.headRequest "https://example.com"]) ∧
    (OutcomeV1.checkStatusError).isSuccess = false := by decide

/-- Claim C5 (amended): a completed probe answering any non-2xx status code
(3xx included) is not an error of the pipeline: with valid dates and a free
short code the submission is accepted with status inactive (never pending);
a probe network failure, however, is rejected as a server error before any
insert. -/
theorem probe_outcome_routing :
    (∀ (env : EnvV1) (req : ShortenRequestV1) (p : ParsedURL) (r : HeadResponse),
      req.url ≠ "" → env.parse req.url = some p → p.scheme = "https" →
      p.host ≠ "" → env.head req.url = Except.ok r →
      ¬ (200 ≤ r.statusCode ∧ r.statusCode < 300) →
      optBefore req.intendedExpiryDate env.now = false →
      optAfterOpt req.intendedLiveDate req.intendedExpiryDate = false →
      env.existingCodes.contains (env.gen 0) = false →
      ((ShortenURL_v1 env req).1).statusOf = some "inactive") ∧
    (∀ (env : EnvV1) (req : ShortenRequestV1) (p : ParsedURL),
      req.url ≠ "" → env.parse req.url = some p → p.scheme = "https" →
      p.host ≠ "" → env.head req.url = Except.error () →
      ShortenURL_v1 env req =
        (OutcomeV1.checkStatusError, [Event.headRequest req.url])) := by
  constructor
  · intro env req p r hu hp hs hh hr h2xx hd1 hd2 hc
    have hval := validateURLSyntax_ok env.parse req.url p hp hs hh
    have hcs := checkURLStatus_ok env.parse env.head req.url p r hp hs hh hr
    simp at hc
    simp [ShortenURL_v1, hu, hval, hcs, hd1, hd2, hc, h2xx, OutcomeV1.statusOf]
  · intro env req p hu hp hs hh hr
    have hval := validateURLSyntax_ok env.parse req.url p hp hs hh
    have hcs := checkURLStatus_headFailed env.parse env.head req.url p hp hs hh hr
    simp [ShortenURL_v1, hu, hval, hcs]

/-- Witness for C5 (amended), conjunct one, at the concrete 404 probe: the
submission is accepted with status inactive. -/
theorem probe_outcome_routing_witness :
    ((ShortenURL_v1 envHead404 reqFutureLive).1).statusOf = some "inactive" :=
  probe_outcome_routing.1 envHead404 reqFutureLive
    { scheme := "https", host := "example.com" }
    { statusCode := 404, location := "" }
    (by decide) (by decide) (by decide) (by decide) (by decide) (by decide)
    (by decide) (by decide) (by decide)

/-- Claim C7 counterexample: with the first generated code already present in
the store while a second generation attempt would give a fresh code, the v1
handler performs exactly one insert attempt and fails with the generic
persistence error: no regeneration, no retry, and no dedicated allocation
error. -/
theorem code_conflict_not_retried :
    envConflict.existingCodes.contains (envConflict.gen 0) = true ∧
    envConflict.existingCodes.contains (envConflict.gen 1) = false ∧
    ShortenURL_v1 envConflict reqPlain =
      (OutcomeV1.dbError,
        [Event.headRequest "https://example.com",
         Event.insertMapping "aaaa0000"]) := by decide

/-- Claim C7 (amended): a short-code conflict at insert time makes the v1
creation fail at once with the generic server-side persistence error; the
trace shows exactly one insert attempt, so no regeneration or retry
occurs. -/
theorem code_conflict_single_attempt (env : EnvV1) (req : ShortenRequestV1)
    (p : ParsedURL) (r : HeadResponse)
    (hu : req.url ≠ "") (hp : env.parse req.url = some p)
    (hs : p.scheme = "https") (hh : p.host ≠ "")
    (hr : env.head req.url = Except.ok r)
    (hd1 : optBefore req.intendedExpiryDate env.now = false)
    (hd2 : optAfterOpt req.intendedLiveDate req.intendedExpiryDate = false)
    (hc : env.existingCodes.contains (env.gen 0) = true) :
    ShortenURL_v1 env req =
      (OutcomeV1.dbError,
        [Event.headRequest req.url, Event.insertMapping (env.gen 0)]) ∧
    ((ShortenURL_v1 env req).2).countP
      (fun ev => match ev with | Event.insertMapping _ => true | _ => false) = 1 := by
  have hval := validateURLSyntax_ok env.parse req.url p hp hs hh
  have hcs := checkURLStatus_ok env.parse env.head req.url p r hp hs hh hr
  have hcm : env.gen 0 ∈ env.existingCodes := by simpa using hc
  have h1 : ShortenURL_v1 env req =
      (OutcomeV1.dbError,
        [Event.headRequest req.url, Event.insertMapping (env.gen 0)]) := by
    simp [ShortenURL_v1, hu, hval, hcs, hd1, hd2, hcm]
  refine ⟨h1, ?_⟩
  rw [h1]
  rfl

/-- Witness for C7 (amended) at the concrete conflicting store. -/
theorem code_conflict_single_attempt_witness :
    ShortenURL_v1 envConflict reqPlain =
      (OutcomeV1.dbError,
        [Event.headRequest "https://example.com",
         Event.insertMapping "aaaa0000"]) ∧
    ((ShortenURL_v1 envConflict reqPlain).2).countP
      (fun ev => match ev with | Event.insertMapping _ => true | _ => false) = 1 :=
  code_conflict_single_attempt envConflict reqPlain
    { scheme := "https", host := "example.com" }
    { statusCode := 200, location := "" }
    (by decide) (by decide) (by decide) (by decide) (by decide) (by decide)
    (by decide) (by decide)

/-- Claim C8 counterexample: a v2 creation with an unreachable destination
and a future intendedLiveDate schedules a deferred check while storing the
mapping with status "inactive", so the scheduled transition is inactive to
live, never pending to live as the claim describes. -/
theorem scheduled_mapping_not_pending :
    ShortenURL_v2 envNotLive reqFutureLiveV2 =
      (OutcomeV2.success
        { id := 7, shortCode := "aaaa0000", originalUrl := "https://example.com",
          intendedLiveDate := some 100, intendedExpiryDate := none,
          status := "inactive", lastCheckedAt := 0 },
        [Event.headRequest "https://example.com",
         Event.safeBrowsingRequest "https://example.com",
         Event.headRequest "https://example.com",
         Event.insertMapping "aaaa0000",
         Event.scheduleCheck 7 100]) ∧
    ("inactive" : String) ≠ "pending" := by decide

/-- Claim C8 (amended): a mapping for which a check is scheduled is stored
with status inactive (not pending), the scheduled fire time is the supplied
intendedLiveDate, and the check targets the id of the inserted mapping; at
fire time the callback re-fetches the mapping by id and re-probes it: a
reachable destination updates the status to live (inactive to live), while an
unreachable one writes no update, leaving the stored status in place. -/
theorem scheduled_check_behavior :
    (∀ (env : EnvV2) (req : ShortenRequestV2) (m : UrlMapping)
        (tr : List Event) (i d : Nat),
      ShortenURL_v2 env req = (OutcomeV2.success m, tr) →
      Event.scheduleCheck i d ∈ tr →
      m.status = "inactive" ∧ req.intendedLiveDate = some d ∧ i = m.id) ∧
    (∀ (findById : Nat → Option UrlMapping)
        (checkIfLive : String → Except Unit Bool) (urlID : Nat) (m : UrlMapping),
      findById urlID = some m → checkIfLive m.originalUrl = Except.ok true →
      scheduledCheckCallback findById checkIfLive urlID = some (urlID, "live")) ∧
    (∀ (findById : Nat → Option UrlMapping)
        (checkIfLive : String → Except Unit Bool) (urlID : Nat) (m : UrlMapping),
      findById urlID = some m → checkIfLive m.originalUrl = Except.ok false →
      scheduledCheckCallback findById checkIfLive urlID = none) := by
  refine ⟨?_, ?_, ?_⟩
  · intro env req m tr i d h hmem
    obtain ⟨b, hb, hstat, hid, hld, hsched⟩ :=
      shortenV2_success_inversion env req m tr h
    obtain ⟨hbf, hie, hld2⟩ := hsched i d hmem
    refine ⟨?_, hld2, ?_⟩
    · rw [hstat, hbf]
      simp
    · rw [hie, hid]
  · intro findById checkIfLive urlID m hm hl
    simp [scheduledCheckCallback, hm, hl]
  · intro findById checkIfLive urlID m hm hl
    simp [scheduledCheckCallback, hm, hl]

/-- Witness for C8 (amended), conjunct two: the callback promotes a stored
mapping with a reachable destination to live. -/
theorem scheduled_check_behavior_witness :
    scheduledCheckCallback (fun i => if i = 1 then some mapping404 else none)
      (fun _ => Except.ok true) 1 = some (1, "live") :=
  scheduled_check_behavior.2.1 (fun i => if i = 1 then some mapping404 else none)
    (fun _ => Except.ok true) 1 mapping404 (by decide) (by decide)
